import Mathlib

/-!
# GoodProtocol coverage configuration (`.solcover.js`)

The repository fragment is one CommonJS module whose `module.exports` is an
object literal.  The object literal is embedded as a value of `JsVal`; the
field accessors below read it the way a consumer reads `cfg.mocha.grep`.

The configuration loader described by the specification (`load`) is not part
of the source tree; it is modelled from the specification and marked as such.
-/

set_option autoImplicit false

namespace SolCover

/-! ## Values of the object literal -/

/-- The JavaScript values that occur in the module: strings, integer number
literals, booleans, array literals and object literals (key/value pairs in
declaration order). -/
inductive JsVal where
  | str : String → JsVal
  | num : Int → JsVal
  | bool : Bool → JsVal
  | arr : List JsVal → JsVal
  | obj : List (String × JsVal) → JsVal

/-- Property access `v.key`: defined on objects that declare `key`. -/
def JsVal.field : JsVal → String → Option JsVal
  | JsVal.obj kvs, key => kvs.lookup key
  | _, _ => none

/-- Chained property access `v.k1.k2...`. -/
def JsVal.lookupPath : JsVal → List String → Option JsVal
  | v, [] => some v
  | v, k :: ks => (v.field k).bind (fun w => JsVal.lookupPath w ks)

/-- The strings of an array literal whose elements are all strings. -/
def asStrings : List JsVal → Option (List String)
  | [] => some []
  | JsVal.str s :: vs => (asStrings vs).map (fun ss => s :: ss)
  | _ :: _ => none

/-! ## The module: `src/.solcover.js` -/

/-- The value of `module.exports` in `src/.solcover.js`, field by field. -/
def solcover : JsVal :=
  JsVal.obj [
    ("providerOptions", JsVal.obj [
      ("mnemonic",
        JsVal.str "glad notable bullet donkey fall dolphin simple size stone evil slogan dinner"),
      ("default_balance_ether", JsVal.num 1000000)
    ]),
    ("istanbulReporter", JsVal.arr [JsVal.str "html", JsVal.str "lcov"]),
    ("skipFiles", JsVal.arr [
      JsVal.str "mocks/cDAINonMintableMock.sol",
      JsVal.str "mocks/GoodCompoundStakingTest.sol",
      JsVal.str "mocks/DaiEthPriceMockOracle.sol",
      JsVal.str "mocks/TwentyDecimalsTokenMock.sol",
      JsVal.str "mocks/EightDecimalsTokenMock.sol",
      JsVal.str "mocks/EthUSDMockOracle.sol",
      JsVal.str "mocks/cDAILowWorthMock.sol",
      JsVal.str "mocks/cEDTMock.sol",
      JsVal.str "mocks/cUSDCMock.sol",
      JsVal.str "mocks/OverMintTesterRegularStake.sol",
      JsVal.str "mocks/GoodFundManagerTest.sol",
      JsVal.str "mocks/cSDTMock.sol",
      JsVal.str "mocks/SixteenDecimalsTokenMock.sol",
      JsVal.str "mocks/GasPriceMockOracle.sol",
      JsVal.str "mocks/UsdcMock.sol",
      JsVal.str "mocks/DAIMock.sol",
      JsVal.str "mocks/BatUSDMockOracle.sol",
      JsVal.str "mocks/CompUsdMockOracle.sol",
      JsVal.str "mocks/OverMintTester.sol",
      JsVal.str "mocks/cDAIMock.sol",
      JsVal.str "mocks/cBATMock.sol",
      JsVal.str "utils/ReputationTestHelper.sol",
      JsVal.str "utils/BancorFormula.sol",
      JsVal.str "utils/DSMath.sol"
    ]),
    ("mocha", JsVal.obj [
      ("grep", JsVal.str "@skip-on-coverage"),
      ("invert", JsVal.bool true),
      ("enableTimeouts", JsVal.bool false),
      ("timeout", JsVal.num 3600000)
    ])
  ]

/-- The strings of the array at `path`, when there is one. -/
def stringsAt (doc : JsVal) (path : List String) : Option (List String) :=
  match doc.lookupPath path with
  | some (JsVal.arr vs) => asStrings vs
  | _ => none

/-- The string at `path`, when there is one. -/
def strAt (doc : JsVal) (path : List String) : Option String :=
  match doc.lookupPath path with
  | some (JsVal.str s) => some s
  | _ => none

/-- The number at `path`, when there is one. -/
def numAt (doc : JsVal) (path : List String) : Option Int :=
  match doc.lookupPath path with
  | some (JsVal.num n) => some n
  | _ => none

/-- The boolean at `path`, when there is one. -/
def boolAt (doc : JsVal) (path : List String) : Option Bool :=
  match doc.lookupPath path with
  | some (JsVal.bool b) => some b
  | _ => none

/-- The document with the field at `path` removed (`delete doc.k1.k2`). -/
def JsVal.erasePath : JsVal → List String → JsVal
  | v, [] => v
  | JsVal.obj kvs, [k] => JsVal.obj (kvs.filter (fun kv => kv.1 ≠ k))
  | JsVal.obj kvs, k :: k2 :: ks =>
      JsVal.obj (kvs.map (fun kv =>
        if kv.1 = k then (kv.1, JsVal.erasePath kv.2 (k2 :: ks)) else kv))
  | v, _ :: _ => v

/-! ## Paths of the recognised fields -/

abbrev mnemonicPath : List String := ["providerOptions", "mnemonic"]
abbrev balancePath : List String := ["providerOptions", "default_balance_ether"]
abbrev reportersPath : List String := ["istanbulReporter"]
abbrev skipFilesPath : List String := ["skipFiles"]
abbrev grepPath : List String := ["mocha", "grep"]
abbrev invertPath : List String := ["mocha", "invert"]
abbrev enableTimeoutsPath : List String := ["mocha", "enableTimeouts"]
abbrev timeoutPath : List String := ["mocha", "timeout"]

/-- The exported `skipFiles` array, as the list of its entries (empty when the
module declares none). -/
def skipFiles : List String := (stringsAt solcover skipFilesPath).getD []

/-! ## Path shape of the `skipFiles` entries -/

/-- `p` names a file directly inside directory `dir`: `p` is `dir/name` with
`name` non-empty and free of `/`. -/
def inDirectory (dir p : String) : Bool :=
  (dir.data ++ ['/']).isPrefixOf p.data
    && !(p.data.drop (dir.data.length + 1)).isEmpty
    && !(p.data.drop (dir.data.length + 1)).contains '/'

/-- The part of a path before its first `/`. -/
def entryDir (p : String) : String := ⟨p.data.takeWhile (fun c => c ≠ '/')⟩

/-- The part of a path between its first `/` and its last four characters
(the place of the `.sol` extension). -/
def entryName (p : String) : String :=
  ⟨((p.data.dropWhile (fun c => c ≠ '/')).drop 1).reverse.drop 4 |>.reverse⟩

/-! ## The test filter, as the module's comments state it -/

/-- `grep: "@skip-on-coverage", // Find everything with this tag`: the grep
finds a test when the tag occurs in its title. -/
def grepFinds (grep title : String) : Bool :=
  title.data.tails.any (fun suffix => grep.data.isPrefixOf suffix)

/-- `invert: true, // Run the grep's inverse set.`: with `invert` the tests
that run are those the grep does not find; without it, those it finds. -/
def mochaRuns (grep : String) (invert : Bool) (title : String) : Bool :=
  if invert then !grepFinds grep title else grepFinds grep title

/-! ## The loader of the specification -/

/-- Modelled from the spec: the two error kinds of §7. -/
inductive ConfigError where
  | ConfigNotFoundError
  | ConfigParseError
  deriving DecidableEq, Repr

/-- Modelled from the spec: the `mochaOptions` record of §3. -/
structure MochaOptions where
  grep : String
  invert : Bool
  enableTimeouts : Bool
  timeoutMs : Int
  deriving DecidableEq

/-- Modelled from the spec: the `CoverageConfig` entity of §3; `skipFiles` is a
set of paths. -/
structure CoverageConfig where
  mnemonic : String
  defaultBalanceEther : Int
  reporters : List String
  skipFiles : Finset String
  mochaOptions : MochaOptions
  deriving DecidableEq

/-- Modelled from the spec: the timeout in force for a test under §3
(`enableTimeouts`: whether per-test timeouts are enforced; `timeoutMs`: the
maximum duration when they are).  The consumer that applies it is the external
test runner. -/
def enforcedTimeoutMs (enableTimeouts : Bool) (timeoutMs : Int) : Option Int :=
  if enableTimeouts then some timeoutMs else none

/-- Modelled from the spec: the `skipFiles` rule of §4.1, "an absent
`skipFiles` list is treated as empty"; a present value must be a sequence of
strings. -/
def skipFilesOf (doc : JsVal) : Option (List String) :=
  match doc.lookupPath skipFilesPath with
  | none => some []
  | some (JsVal.arr vs) => asStrings vs
  | some _ => none

/-- Modelled from the spec: the fields whose absence is an error (§4.1, §8):
every recognised field of §6 except `skipFiles`, whose absence §4.1 reads as
the empty list. -/
def requiredFields : List (List String) :=
  [mnemonicPath, balancePath, reportersPath, grepPath, invertPath,
   enableTimeoutsPath, timeoutPath]

/-- Modelled from the spec: the field-by-field reading of a document by the
Configuration Loader of §4.1, which is not in the source tree.  Each field of
§6 is read with its declared shape; nothing is defaulted except an absent
`skipFiles`. -/
def parseConfig (doc : JsVal) : Option CoverageConfig :=
  (strAt doc mnemonicPath).bind fun mnemonic =>
  (numAt doc balancePath).bind fun balance =>
  (stringsAt doc reportersPath).bind fun reporters =>
  (skipFilesOf doc).bind fun skip =>
  (strAt doc grepPath).bind fun grep =>
  (boolAt doc invertPath).bind fun invert =>
  (boolAt doc enableTimeoutsPath).bind fun enableTimeouts =>
  (numAt doc timeoutPath).bind fun timeout =>
  some {
    mnemonic := mnemonic
    defaultBalanceEther := balance
    reporters := reporters
    skipFiles := skip.toFinset
    mochaOptions := {
      grep := grep
      invert := invert
      enableTimeouts := enableTimeouts
      timeoutMs := timeout } }

/-- Modelled from the spec: `load(documentPath) -> CoverageConfig` of §4.1,
which is not in the source tree.  `fs` resolves a path to the document stored
there (its evaluated value), if any.  An unresolved path is
`ConfigNotFoundError`; a document that lacks a required field or holds a field
of the wrong shape is `ConfigParseError`. -/
def load (fs : String → Option JsVal) (documentPath : String) :
    Except ConfigError CoverageConfig :=
  match fs documentPath with
  | none => Except.error ConfigError.ConfigNotFoundError
  | some doc =>
    match parseConfig doc with
    | some cfg => Except.ok cfg
    | none => Except.error ConfigError.ConfigParseError

end SolCover

namespace SolCover

/-! ## Supporting lemmas -/

theorem asStrings_map_str (r : List String) : asStrings (r.map JsVal.str) = some r := by
  induction r with
  | nil => rfl
  | cons a r ih => simp [asStrings, ih]

theorem asStrings_eq_some {vs : List JsVal} {r : List String} (h : asStrings vs = some r) :
    vs = r.map JsVal.str := by
  induction vs generalizing r with
  | nil => simp [asStrings] at h; simp [← h]
  | cons v vs ih =>
    cases v <;> simp [asStrings] at h
    obtain ⟨ss, hss, rfl⟩ := h
    simp [ih hss]

theorem skipFilesOf_of_stringsAt {doc : JsVal} {s : List String}
    (h : stringsAt doc skipFilesPath = some s) : skipFilesOf doc = some s := by
  unfold stringsAt at h
  unfold skipFilesOf
  split at h <;> simp_all

theorem strAt_eq_none {doc : JsVal} {path : List String} (h : doc.lookupPath path = none) :
    strAt doc path = none := by
  simp [strAt, h]

theorem numAt_eq_none {doc : JsVal} {path : List String} (h : doc.lookupPath path = none) :
    numAt doc path = none := by
  simp [numAt, h]

theorem boolAt_eq_none {doc : JsVal} {path : List String} (h : doc.lookupPath path = none) :
    boolAt doc path = none := by
  simp [boolAt, h]

theorem stringsAt_eq_none {doc : JsVal} {path : List String}
    (h : doc.lookupPath path = none) : stringsAt doc path = none := by
  simp [stringsAt, h]

theorem parseConfig_eq_none_of_missing {doc : JsVal} {field : List String}
    (hf : field ∈ requiredFields) (h : doc.lookupPath field = none) :
    parseConfig doc = none := by
  simp only [requiredFields, List.mem_cons, List.mem_singleton, List.not_mem_nil, or_false] at hf
  rcases hf with rfl | rfl | rfl | rfl | rfl | rfl | rfl
  · simp [parseConfig, strAt_eq_none h]
  · simp [parseConfig, numAt_eq_none h]
  · simp [parseConfig, stringsAt_eq_none h]
  · simp [parseConfig, strAt_eq_none h]
  · simp [parseConfig, boolAt_eq_none h]
  · simp [parseConfig, boolAt_eq_none h]
  · simp [parseConfig, numAt_eq_none h]

theorem lookup_filter_ne (k : String) (kvs : List (String × JsVal)) :
    (kvs.filter (fun kv => kv.1 ≠ k)).lookup k = none := by
  induction kvs with
  | nil => rfl
  | cons kv kvs ih =>
    obtain ⟨a, v⟩ := kv
    by_cases hk : a = k
    · rw [List.filter_cons_of_neg (by simpa using hk)]
      exact ih
    · have hne : (k == a) = false := by
        simpa using fun h => hk h.symm
      rw [List.filter_cons_of_pos (by simpa using hk)]
      simp only [List.lookup, hne]
      exact ih

theorem lookup_map_erase (k : String) (f : JsVal → JsVal) (kvs : List (String × JsVal)) :
    (kvs.map (fun kv => if kv.1 = k then (kv.1, f kv.2) else kv)).lookup k
      = (kvs.lookup k).map f := by
  induction kvs with
  | nil => rfl
  | cons kv kvs ih =>
    obtain ⟨a, v⟩ := kv
    by_cases hk : a = k
    · have he : (k == a) = true := by simp [hk]
      rw [List.map_cons, if_pos hk]
      simp only [List.lookup, he, Option.map_some']
    · have hne : (k == a) = false := by
        simpa using fun h => hk h.symm
      rw [List.map_cons, if_neg hk]
      simp only [List.lookup, hne]
      exact ih

/-- Removing a field makes it absent: after `erasePath`, the path resolves to
nothing. -/
theorem lookupPath_erasePath (path : List String) (hp : path ≠ []) (doc : JsVal) :
    (doc.erasePath path).lookupPath path = none := by
  induction path generalizing doc with
  | nil => exact absurd rfl hp
  | cons k ks ih =>
    cases ks with
    | nil =>
      cases doc with
      | obj kvs =>
        simp only [JsVal.erasePath, JsVal.lookupPath, JsVal.field, lookup_filter_ne]
        rfl
      | str s => simp [JsVal.erasePath, JsVal.lookupPath, JsVal.field]
      | num n => simp [JsVal.erasePath, JsVal.lookupPath, JsVal.field]
      | bool b => simp [JsVal.erasePath, JsVal.lookupPath, JsVal.field]
      | arr vs => simp [JsVal.erasePath, JsVal.lookupPath, JsVal.field]
    | cons k2 ks =>
      cases doc with
      | obj kvs =>
        have ih2 := fun w => ih (by simp) w
        simp only [JsVal.erasePath, JsVal.lookupPath, JsVal.field]
        rw [lookup_map_erase k (fun v => JsVal.erasePath v (k2 :: ks)) kvs]
        cases hl : kvs.lookup k with
        | none => rfl
        | some w =>
          have := ih2 w
          simpa [JsVal.lookupPath] using this
      | str s => simp [JsVal.erasePath, JsVal.lookupPath, JsVal.field]
      | num n => simp [JsVal.erasePath, JsVal.lookupPath, JsVal.field]
      | bool b => simp [JsVal.erasePath, JsVal.lookupPath, JsVal.field]
      | arr vs => simp [JsVal.erasePath, JsVal.lookupPath, JsVal.field]

theorem grepFinds_iff (grep title : String) :
    grepFinds grep title = true ↔ grep.data <:+: title.data := by
  simp only [grepFinds, List.any_eq_true, List.mem_tails, List.isPrefixOf_iff_prefix]
  rw [List.infix_iff_prefix_suffix]
  constructor
  · rintro ⟨t, ht, hg⟩
    exact ⟨t, hg, ht⟩
  · rintro ⟨t, hg, ht⟩
    exact ⟨t, ht, hg⟩

/-- The loader's treatment of an absent `skipFiles` (§4.1): the empty set, not
an error. -/
theorem load_solcover_without_skipFiles (fs : String → Option JsVal) (documentPath : String)
    (h : fs documentPath = some (solcover.erasePath skipFilesPath)) :
    ∃ cfg, load fs documentPath = Except.ok cfg ∧ cfg.skipFiles = ∅ := by
  simp only [load, h]
  exact ⟨_, rfl, rfl⟩

/-- An unresolved path is `ConfigNotFoundError` (§4.1). -/
theorem load_not_found (fs : String → Option JsVal) (documentPath : String)
    (h : fs documentPath = none) :
    load fs documentPath = Except.error ConfigError.ConfigNotFoundError := by
  simp [load, h]

/-! ## The claims -/

/-- C1: round-trip fidelity of `load`.  For every document in which all eight
fields of §6 are populated with their declared shapes, `load` returns the
`CoverageConfig` whose fields are exactly the document's values (`skipFiles` as
the set of the declared entries); in particular the document exported by
`src/.solcover.js` loads to the mnemonic, balance 1000000, reporters
`["html", "lcov"]`, the 24 declared paths, grep `"@skip-on-coverage"`,
invert `true`, enableTimeouts `false` and timeoutMs 3600000. -/
theorem load_roundtrip :
    (∀ (fs : String → Option JsVal) (documentPath : String) (doc : JsVal)
        (m : String) (b : Int) (r s : List String) (g : String) (i e : Bool) (t : Int),
        fs documentPath = some doc →
        strAt doc mnemonicPath = some m →
        numAt doc balancePath = some b →
        stringsAt doc reportersPath = some r →
        stringsAt doc skipFilesPath = some s →
        strAt doc grepPath = some g →
        boolAt doc invertPath = some i →
        boolAt doc enableTimeoutsPath = some e →
        numAt doc timeoutPath = some t →
        load fs documentPath = Except.ok
          { mnemonic := m,
            defaultBalanceEther := b,
            reporters := r,
            skipFiles := s.toFinset,
            mochaOptions :=
              { grep := g, invert := i, enableTimeouts := e, timeoutMs := t } }) ∧
    (∀ (fs : String → Option JsVal) (documentPath : String),
        fs documentPath = some solcover →
        load fs documentPath = Except.ok
          { mnemonic :=
              "glad notable bullet donkey fall dolphin simple size stone evil slogan dinner",
            defaultBalanceEther := 1000000,
            reporters := ["html", "lcov"],
            skipFiles := List.toFinset [
              "mocks/cDAINonMintableMock.sol",
              "mocks/GoodCompoundStakingTest.sol",
              "mocks/DaiEthPriceMockOracle.sol",
              "mocks/TwentyDecimalsTokenMock.sol",
              "mocks/EightDecimalsTokenMock.sol",
              "mocks/EthUSDMockOracle.sol",
              "mocks/cDAILowWorthMock.sol",
              "mocks/cEDTMock.sol",
              "mocks/cUSDCMock.sol",
              "mocks/OverMintTesterRegularStake.sol",
              "mocks/GoodFundManagerTest.sol",
              "mocks/cSDTMock.sol",
              "mocks/SixteenDecimalsTokenMock.sol",
              "mocks/GasPriceMockOracle.sol",
              "mocks/UsdcMock.sol",
              "mocks/DAIMock.sol",
              "mocks/BatUSDMockOracle.sol",
              "mocks/CompUsdMockOracle.sol",
              "mocks/OverMintTester.sol",
              "mocks/cDAIMock.sol",
              "mocks/cBATMock.sol",
              "utils/ReputationTestHelper.sol",
              "utils/BancorFormula.sol",
              "utils/DSMath.sol"],
            mochaOptions :=
              { grep := "@skip-on-coverage",
                invert := true,
                enableTimeouts := false,
                timeoutMs := 3600000 } }) := by
  refine ⟨?_, ?_⟩
  · intro fs documentPath doc m b r s g i e t hfs hm hb hr hs hg hi he ht
    simp [load, hfs, parseConfig, hm, hb, hr, skipFilesOf_of_stringsAt hs, hg, hi, he, ht]
  · intro fs documentPath hfs
    simp only [load, hfs]
    rfl

/-- Witness of C1: both parts at the exported document, stored under the path
`.solcover.js`. -/
theorem load_roundtrip_witness :
    load (fun _ => some solcover) ".solcover.js" = Except.ok
          { mnemonic :=
              "glad notable bullet donkey fall dolphin simple size stone evil slogan dinner",
            defaultBalanceEther := 1000000,
            reporters := ["html", "lcov"],
            skipFiles := List.toFinset [
              "mocks/cDAINonMintableMock.sol",
              "mocks/GoodCompoundStakingTest.sol",
              "mocks/DaiEthPriceMockOracle.sol",
              "mocks/TwentyDecimalsTokenMock.sol",
              "mocks/EightDecimalsTokenMock.sol",
              "mocks/EthUSDMockOracle.sol",
              "mocks/cDAILowWorthMock.sol",
              "mocks/cEDTMock.sol",
              "mocks/cUSDCMock.sol",
              "mocks/OverMintTesterRegularStake.sol",
              "mocks/GoodFundManagerTest.sol",
              "mocks/cSDTMock.sol",
              "mocks/SixteenDecimalsTokenMock.sol",
              "mocks/GasPriceMockOracle.sol",
              "mocks/UsdcMock.sol",
              "mocks/DAIMock.sol",
              "mocks/BatUSDMockOracle.sol",
              "mocks/CompUsdMockOracle.sol",
              "mocks/OverMintTester.sol",
              "mocks/cDAIMock.sol",
              "mocks/cBATMock.sol",
              "utils/ReputationTestHelper.sol",
              "utils/BancorFormula.sol",
              "utils/DSMath.sol"],
            mochaOptions :=
              { grep := "@skip-on-coverage",
                invert := true,
                enableTimeouts := false,
                timeoutMs := 3600000 } } ∧
    load (fun _ => some solcover) ".solcover.js" = Except.ok
          { mnemonic :=
              "glad notable bullet donkey fall dolphin simple size stone evil slogan dinner",
            defaultBalanceEther := 1000000,
            reporters := ["html", "lcov"],
            skipFiles := skipFiles.toFinset,
            mochaOptions :=
              { grep := "@skip-on-coverage",
                invert := true,
                enableTimeouts := false,
                timeoutMs := 3600000 } } :=
  ⟨load_roundtrip.2 (fun _ => some solcover) ".solcover.js" rfl,
   load_roundtrip.1 (fun _ => some solcover) ".solcover.js" solcover _ _ _ _ _ _ _ _
     rfl rfl rfl rfl rfl rfl rfl rfl rfl⟩

/-- C2: the exported `istanbulReporter` is the two-element sequence
`["html", "lcov"]`, with `"html"` at index 0 and `"lcov"` at index 1, and it is
not `["lcov", "html"]`. -/
theorem istanbulReporter_order :
    ∃ r : List String, stringsAt solcover reportersPath = some r ∧
      r = ["html", "lcov"] ∧ r.length = 2 ∧
      r.get? 0 = some "html" ∧ r.get? 1 = some "lcov" ∧
      r ≠ ["lcov", "html"] :=
  ⟨["html", "lcov"], rfl, rfl, rfl, rfl, rfl, by decide⟩

/-- C3: the module exposes `mocha.grep = "@skip-on-coverage"` and
`mocha.invert = true`, and under the rule of its comments (the grep finds
every title carrying the tag, invert runs the inverse set) a test runs if and
only if its title does not contain `"@skip-on-coverage"`. -/
theorem mocha_grep_invert :
    ∃ (g : String) (i : Bool),
      strAt solcover grepPath = some g ∧ boolAt solcover invertPath = some i ∧
      g = "@skip-on-coverage" ∧ i = true ∧
      ∀ title : String,
        mochaRuns g i title = true ↔ ¬ ("@skip-on-coverage".data <:+: title.data) := by
  refine ⟨"@skip-on-coverage", true, rfl, rfl, rfl, rfl, ?_⟩
  intro title
  simp only [mochaRuns, if_true, Bool.not_eq_true', ← Bool.not_eq_true]
  exact not_congr (grepFinds_iff "@skip-on-coverage" title)

/-- Counterexample to C4 as stated: not every entry of `skipFiles` is a file
of the `mocks/` directory (`utils/DSMath.sol` is an entry). -/
theorem skipFiles_not_all_mocks :
    "utils/DSMath.sol" ∈ skipFiles ∧ inDirectory "mocks" "utils/DSMath.sol" = false ∧
      ¬ (∀ p ∈ skipFiles, inDirectory "mocks" p = true) := by
  decide

/-- C4, amended: every entry of the exported `skipFiles` list is a file of
the `mocks/` directory, except the three entries
`utils/ReputationTestHelper.sol`, `utils/BancorFormula.sol` and
`utils/DSMath.sol`, which are files of the `utils/` directory. -/
theorem skipFiles_mocks_or_utils :
    ∀ p ∈ skipFiles,
      inDirectory "mocks" p = true ∨
      (p ∈ ["utils/ReputationTestHelper.sol", "utils/BancorFormula.sol", "utils/DSMath.sol"] ∧
        inDirectory "utils" p = true ∧ inDirectory "mocks" p = false) := by
  decide

/-- Witness of the amended C4 at the entries `mocks/DAIMock.sol` and
`utils/BancorFormula.sol`. -/
theorem skipFiles_mocks_or_utils_witness :
    ("mocks/DAIMock.sol" ∈ skipFiles ∧
      (inDirectory "mocks" "mocks/DAIMock.sol" = true ∨
        ("mocks/DAIMock.sol" ∈
            ["utils/ReputationTestHelper.sol", "utils/BancorFormula.sol", "utils/DSMath.sol"] ∧
          inDirectory "utils" "mocks/DAIMock.sol" = true ∧
          inDirectory "mocks" "mocks/DAIMock.sol" = false))) ∧
    ("utils/BancorFormula.sol" ∈ skipFiles ∧
      (inDirectory "mocks" "utils/BancorFormula.sol" = true ∨
        ("utils/BancorFormula.sol" ∈
            ["utils/ReputationTestHelper.sol", "utils/BancorFormula.sol", "utils/DSMath.sol"] ∧
          inDirectory "utils" "utils/BancorFormula.sol" = true ∧
          inDirectory "mocks" "utils/BancorFormula.sol" = false))) :=
  ⟨⟨by decide, skipFiles_mocks_or_utils "mocks/DAIMock.sol" (by decide)⟩,
   ⟨by decide, skipFiles_mocks_or_utils "utils/BancorFormula.sol" (by decide)⟩⟩

/-- C5: the document exported by `src/.solcover.js` defines every recognised
field with the required shape (string, integer, sequence of string, sequence
of string, string, boolean, boolean, integer), so loading it does not fail
with `ConfigParseError`: it yields a configuration. -/
theorem solcover_well_formed :
    (∃ m : String, solcover.lookupPath mnemonicPath = some (JsVal.str m)) ∧
    (∃ b : Int, solcover.lookupPath balancePath = some (JsVal.num b)) ∧
    (∃ r : List String, solcover.lookupPath reportersPath = some (JsVal.arr (r.map JsVal.str))) ∧
    (∃ s : List String, solcover.lookupPath skipFilesPath = some (JsVal.arr (s.map JsVal.str))) ∧
    (∃ g : String, solcover.lookupPath grepPath = some (JsVal.str g)) ∧
    (∃ i : Bool, solcover.lookupPath invertPath = some (JsVal.bool i)) ∧
    (∃ e : Bool, solcover.lookupPath enableTimeoutsPath = some (JsVal.bool e)) ∧
    (∃ t : Int, solcover.lookupPath timeoutPath = some (JsVal.num t)) ∧
    ∀ (fs : String → Option JsVal) (documentPath : String),
      fs documentPath = some solcover →
      load fs documentPath ≠ Except.error ConfigError.ConfigParseError ∧
      ∃ cfg, load fs documentPath = Except.ok cfg := by
  refine ⟨⟨_, rfl⟩, ⟨_, rfl⟩, ⟨["html", "lcov"], rfl⟩, ⟨skipFiles, rfl⟩, ⟨_, rfl⟩, ⟨_, rfl⟩,
    ⟨_, rfl⟩, ⟨_, rfl⟩, ?_⟩
  intro fs documentPath hfs
  have hok : ∃ cfg, load fs documentPath = Except.ok cfg := by
    simp only [load, hfs]
    exact ⟨_, rfl⟩
  obtain ⟨cfg, hcfg⟩ := hok
  exact ⟨by simp [hcfg], cfg, hcfg⟩

/-- Witness of C5: the exported document stored under `.solcover.js` loads. -/
theorem solcover_well_formed_witness :
    load (fun _ => some solcover) ".solcover.js" ≠ Except.error ConfigError.ConfigParseError ∧
      ∃ cfg, load (fun _ => some solcover) ".solcover.js" = Except.ok cfg :=
  solcover_well_formed.2.2.2.2.2.2.2.2 (fun _ => some solcover) ".solcover.js" rfl

/-- C6: for every document that lacks a required field, `load` fails with
`ConfigParseError` and returns no `CoverageConfig` (no default stands in for
the missing field); this holds for every document from which a required field
has been removed, and for the document of `src/.solcover.js` with
`providerOptions.mnemonic` removed.  The required fields are the recognised
fields other than `skipFiles`, the one field whose absence §4.1 reads as the
empty list. -/
theorem load_missing_required_field :
    (∀ (fs : String → Option JsVal) (documentPath : String) (doc : JsVal)
        (field : List String),
        fs documentPath = some doc → field ∈ requiredFields →
        doc.lookupPath field = none →
        load fs documentPath = Except.error ConfigError.ConfigParseError ∧
        ∀ cfg, load fs documentPath ≠ Except.ok cfg) ∧
    (∀ (fs : String → Option JsVal) (documentPath : String) (doc : JsVal)
        (field : List String),
        fs documentPath = some (doc.erasePath field) → field ∈ requiredFields →
        load fs documentPath = Except.error ConfigError.ConfigParseError) ∧
    (∀ (fs : String → Option JsVal) (documentPath : String),
        fs documentPath = some (solcover.erasePath mnemonicPath) →
        (solcover.erasePath mnemonicPath).lookupPath mnemonicPath = none ∧
        load fs documentPath = Except.error ConfigError.ConfigParseError) := by
  have main : ∀ (fs : String → Option JsVal) (documentPath : String) (doc : JsVal)
      (field : List String), fs documentPath = some doc → field ∈ requiredFields →
      doc.lookupPath field = none →
      load fs documentPath = Except.error ConfigError.ConfigParseError := by
    intro fs documentPath doc field hfs hf hnone
    simp [load, hfs, parseConfig_eq_none_of_missing hf hnone]
  have nonempty : ∀ field ∈ requiredFields, field ≠ [] := by decide
  refine ⟨?_, ?_, ?_⟩
  · intro fs documentPath doc field hfs hf hnone
    have h := main fs documentPath doc field hfs hf hnone
    exact ⟨h, fun cfg hc => by rw [h] at hc; cases hc⟩
  · intro fs documentPath doc field hfs hf
    exact main fs documentPath _ field hfs hf (lookupPath_erasePath field (nonempty field hf) doc)
  · intro fs documentPath hfs
    have hnone := lookupPath_erasePath mnemonicPath (by decide) solcover
    exact ⟨hnone, main fs documentPath _ mnemonicPath hfs (by decide) hnone⟩

/-- Witness of C6: the exported document with `providerOptions.mnemonic`
removed, stored under `.solcover.js`, fails to load with `ConfigParseError`;
so does the exported document with the whole `mocha` record dropped, which
lacks `mocha.timeout`. -/
theorem load_missing_required_field_witness :
    ((solcover.erasePath mnemonicPath).lookupPath mnemonicPath = none ∧
      load (fun _ => some (solcover.erasePath mnemonicPath)) ".solcover.js"
        = Except.error ConfigError.ConfigParseError) ∧
    (load (fun _ => some (solcover.erasePath ["mocha"])) ".solcover.js"
        = Except.error ConfigError.ConfigParseError ∧
      ∀ cfg, load (fun _ => some (solcover.erasePath ["mocha"])) ".solcover.js"
        ≠ Except.ok cfg) ∧
    load (fun _ => some (solcover.erasePath invertPath)) ".solcover.js"
        = Except.error ConfigError.ConfigParseError :=
  ⟨load_missing_required_field.2.2 (fun _ => some (solcover.erasePath mnemonicPath))
      ".solcover.js" rfl,
   load_missing_required_field.1 (fun _ => some (solcover.erasePath ["mocha"]))
      ".solcover.js" (solcover.erasePath ["mocha"]) timeoutPath rfl (by decide) rfl,
   load_missing_required_field.2.1 (fun _ => some (solcover.erasePath invertPath))
      ".solcover.js" solcover invertPath rfl (by decide)⟩

/-- C7: the exported `skipFiles` list has 24 entries, pairwise distinct, so
the set of its entries has exactly 24 elements and contains every entry. -/
theorem skipFiles_nodup :
    stringsAt solcover skipFilesPath = some skipFiles ∧
    skipFiles.length = 24 ∧
    skipFiles.Pairwise (fun p q => p ≠ q) ∧
    skipFiles.toFinset.card = 24 ∧
    ∀ p : String, p ∈ skipFiles.toFinset ↔ p ∈ skipFiles := by
  have hnd : skipFiles.Nodup := by decide
  refine ⟨rfl, by decide, hnd, ?_, fun p => List.mem_toFinset⟩
  rw [List.toFinset_card_of_nodup hnd]
  decide

/-- C8: `mocha.timeout` is 3600000 milliseconds, exactly `60 * 60 * 1000`
(one hour), and `mocha.enableTimeouts` is `false`, so no timeout is
enforced. -/
theorem mocha_timeout_one_hour :
    ∃ (t : Int) (e : Bool),
      numAt solcover timeoutPath = some t ∧ boolAt solcover enableTimeoutsPath = some e ∧
      t = 3600000 ∧ t = 60 * 60 * 1000 ∧ e = false ∧ enforcedTimeoutMs e t = none :=
  ⟨3600000, false, rfl, rfl, rfl, by decide, rfl, rfl⟩

/-- C9: every entry of the exported `skipFiles` list is a relative path
`<dir>/<name>.sol` with exactly one `/`, where `<dir>` is `mocks` or `utils`
and `<name>` is non-empty; 21 entries are under `mocks/` and 3 under
`utils/`. -/
theorem skipFiles_path_form :
    (∀ p ∈ skipFiles, ∃ dir name : String,
        (dir = "mocks" ∨ dir = "utils") ∧ name ≠ "" ∧
        p = dir ++ "/" ++ name ++ ".sol" ∧
        p.data.count '/' = 1 ∧ p.data.head? ≠ some '/') ∧
    (skipFiles.filter (inDirectory "mocks")).length = 21 ∧
    (skipFiles.filter (inDirectory "utils")).length = 3 ∧
    skipFiles.length = 21 + 3 := by
  have h : ∀ p ∈ skipFiles,
      (entryDir p = "mocks" ∨ entryDir p = "utils") ∧ entryName p ≠ "" ∧
      p = entryDir p ++ "/" ++ entryName p ++ ".sol" ∧
      p.data.count '/' = 1 ∧ p.data.head? ≠ some '/' := by decide
  exact ⟨fun p hp => ⟨entryDir p, entryName p, h p hp⟩, by decide, by decide, by decide⟩

/-- Witness of C9 at the entry `utils/DSMath.sol`. -/
theorem skipFiles_path_form_witness :
    "utils/DSMath.sol" ∈ skipFiles ∧
    ∃ dir name : String,
      (dir = "mocks" ∨ dir = "utils") ∧ name ≠ "" ∧
      "utils/DSMath.sol" = dir ++ "/" ++ name ++ ".sol" ∧
      "utils/DSMath.sol".data.count '/' = 1 ∧ "utils/DSMath.sol".data.head? ≠ some '/' :=
  ⟨by decide, skipFiles_path_form.1 "utils/DSMath.sol" (by decide)⟩

/-- C10: `providerOptions.mnemonic` is 12 non-empty words of lowercase
letters joined by single spaces, with no whitespace at either end, and
`providerOptions.default_balance_ether` is the positive integer 1000000. -/
theorem providerOptions_shape :
    ∃ (m : String) (b : Int),
      strAt solcover mnemonicPath = some m ∧ numAt solcover balancePath = some b ∧
      (∃ words : List String,
        words.length = 12 ∧
        (∀ w ∈ words, w ≠ "" ∧ ∀ c ∈ w.data, 'a' ≤ c ∧ c ≤ 'z') ∧
        m = " ".intercalate words) ∧
      (∀ c ∈ m.data.head?, c.isWhitespace = false) ∧
      (∀ c ∈ m.data.getLast?, c.isWhitespace = false) ∧
      b = 1000000 ∧ 0 < b := by
  refine ⟨_, _, rfl, rfl,
    ⟨["glad", "notable", "bullet", "donkey", "fall", "dolphin", "simple", "size", "stone",
      "evil", "slogan", "dinner"], by decide, by decide, by decide⟩,
    by decide, by decide, rfl, by decide⟩

end SolCover
